import Mathlib

/-!
Verification of the books.toscrape.com crawler (crawler/utils.py,
crawler/parser.py, crawler/models/book.py, crawler/scraper.py,
scheduler/change_detector.py, database/mongo.py).

Modelling conventions:
* Python floats that the code only ever parses from and compares against
  short decimal literals (prices) are modelled as exact rationals `ℚ`;
  the code rounds every price to 2 decimals before use, where decimal
  and binary-float equality agree.
* Stateful code (database, statistics counters) is modelled by explicit
  state passing; `async` plays no role in the properties and is dropped.
* Raised Python exceptions are modelled with `Except String` /
  explicit error components; a function that catches all exceptions is
  total again at its boundary.
* HTML markup is modelled at the query level: a `Soup` record holds the
  results of exactly the BeautifulSoup queries the parser performs.
-/

namespace Crawler

/-! ## Python string primitives -/

/-- Python's `\s` whitespace class (ASCII fragment). -/
def pyIsSpace (c : Char) : Bool :=
  c = ' ' || c = '\t' || c = '\n' || c = '\x0d' || c = '\x0b' || c = '\x0c'

/-- Collapse every whitespace run to a single `' '`
(`re.sub(r'\s+', ' ', text)`); the flag records whether the previous
character was part of a whitespace run. -/
def collapseWs : Bool → List Char → List Char
  | _, [] => []
  | prevSpace, c :: cs =>
    if pyIsSpace c then
      if prevSpace then collapseWs true cs
      else ' ' :: collapseWs true cs
    else c :: collapseWs false cs

/-- Python `str.strip()`. -/
def pyStrip (l : List Char) : List Char :=
  ((l.dropWhile pyIsSpace).reverse.dropWhile pyIsSpace).reverse

/-- `clean_text` from crawler/utils.py: collapse internal whitespace,
strip the ends; `None`/empty input gives `""` (the `Option` caller sites
handle `None` before calling this model). -/
def clean_text (s : String) : String :=
  String.mk (pyStrip (collapseWs false s.data))

/-- `as` is a prefix of `bs` (plain Boolean list check). -/
def leadsWith [DecidableEq α] : List α → List α → Bool
  | [], _ => true
  | _ :: _, [] => false
  | a :: as, b :: bs => a = b && leadsWith as bs

/-- `ns` occurs as a contiguous sublist of the second list
(Python's `needle in haystack` on strings). -/
def hasSub [DecidableEq α] (ns : List α) : List α → Bool
  | [] => ns.isEmpty
  | h :: t => leadsWith ns (h :: t) || hasSub ns t

/-- Python `needle in hay` for strings. -/
def containsSub (needle hay : String) : Bool :=
  hasSub needle.data hay.data

/-! ## Decimal fragment of Python `float()` -/

/-- Numeric value of a digit list (most significant first). -/
def digitsVal (l : List Char) : Nat :=
  l.foldl (fun acc c => 10 * acc + (c.toNat - '0'.toNat)) 0

/-- Unsigned decimal literal accepted by Python `float()`:
`digits`, `digits.`, `digits.digits`, `.digits`.  The value is built
with `mkRat` so that it evaluates by kernel reduction. -/
def pyFloatUnsigned? (cs : List Char) : Option ℚ :=
  let intPart := cs.takeWhile Char.isDigit
  let rest := cs.drop intPart.length
  match rest with
  | [] => if intPart.isEmpty then none else some (mkRat (digitsVal intPart) 1)
  | '.' :: frac =>
    if frac.all Char.isDigit && !(intPart.isEmpty && frac.isEmpty) then
      some (mkRat (digitsVal intPart * 10 ^ frac.length + digitsVal frac)
        (10 ^ frac.length))
    else none
  | _ => none

/-- The decimal fragment of Python `float(str)`: optional sign followed
by an unsigned decimal literal.  (Exponents, `inf`, `nan`, underscores
are outside the subset this code ever feeds it.) -/
def pyFloat? (s : List Char) : Option ℚ :=
  match s with
  | '+' :: rest => pyFloatUnsigned? rest
  | '-' :: rest => (pyFloatUnsigned? rest).map (fun q => -q)
  | _ => pyFloatUnsigned? s

/-! ## Pure extraction helpers (crawler/utils.py) -/

/-- `extract_price` from crawler/utils.py: empty/falsy input gives 0.0;
otherwise strip `£ $ € ,` and whitespace anywhere in the string and
parse as a float, an unparsable remainder giving 0.0. -/
def extract_price (s : String) : ℚ :=
  if s = "" then 0
  else
    let clean := s.data.filter fun c =>
      !(c = '£' || c = '$' || c = '€' || c = ',' || pyIsSpace c)
    match pyFloat? clean with
    | some q => q
    | none => 0

/-- The ordinal-word map of `extract_rating`, in Python dict insertion
order. -/
def ratingMap : List (String × Nat) :=
  [("One", 1), ("Two", 2), ("Three", 3), ("Four", 4), ("Five", 5)]

/-- `extract_rating` from crawler/utils.py: first ordinal word (in map
order) occurring as a substring of the CSS class wins; none gives 0. -/
def extract_rating (ratingClass : String) : Nat :=
  match ratingMap.find? (fun p => containsSub p.1 ratingClass) with
  | some p => p.2
  | none => 0

/-- First maximal digit run of a character list (`re.search(r'\d+', t)`). -/
def firstDigitRun : List Char → Option (List Char)
  | [] => none
  | c :: cs => if c.isDigit then some (c :: cs.takeWhile Char.isDigit)
               else firstDigitRun cs

/-- `extract_number_from_text` from crawler/utils.py: the first integer
token in the text, else 0. -/
def extract_number_from_text (s : String) : Nat :=
  if s = "" then 0
  else
    match firstDigitRun s.data with
    | some run => digitsVal run
    | none => 0

/-- Structural worker for `replaceList`: the fuel only ever needs to
cover the list length, and each step consumes at least one character
and exactly one unit of fuel. -/
def replaceListAux (pat repl : List Char) : Nat → List Char → List Char
  | _, [] => []
  | 0, l => l
  | Nat.succ fuel, c :: cs =>
    if !pat.isEmpty && leadsWith pat (c :: cs) then
      repl ++ replaceListAux pat repl fuel (cs.drop (pat.length - 1))
    else c :: replaceListAux pat repl fuel cs

/-- Python `str.replace(pat, repl)` on character lists: left-to-right,
non-overlapping replacement of every occurrence (an empty pattern, which
the code never passes, leaves the list unchanged). -/
def replaceList (pat repl l : List Char) : List Char :=
  replaceListAux pat repl l.length l

/-- Python `str.rstrip('/')`. -/
def rstripSlash (s : String) : String :=
  String.mk (s.data.reverse.dropWhile (· = '/')).reverse

/-- Python `str.lstrip('/')`. -/
def lstripSlash (s : String) : String :=
  String.mk (s.data.dropWhile (· = '/'))

/-- `build_absolute_url` from crawler/utils.py: strip the trailing `/`
of the base and the leading `/` of the relative part; when the relative
part starts with `../`, delete every `../` occurrence and, if
`catalogue` does not occur in the remainder, put `catalogue/` in front;
finally join with a single `/`. -/
def build_absolute_url (baseUrl relativeUrl : String) : String :=
  let base := rstripSlash baseUrl
  let rel := lstripSlash relativeUrl
  let rel :=
    if leadsWith "../".data rel.data then
      let rel2 := String.mk (replaceList "../".data [] rel.data)
      if containsSub "catalogue" rel2 then rel2 else "catalogue/" ++ rel2
    else rel
  base ++ "/" ++ rel

/-! ## SHA-256 (hashlib.sha256, over Nat with explicit mod 2^32) -/

/-- Truncation to a 32-bit word. -/
def w32 (n : Nat) : Nat := n % 4294967296

/-- 32-bit modular addition. -/
def add32 (a b : Nat) : Nat := (a + b) % 4294967296

/-- 32-bit right rotation. -/
def rotr32 (x k : Nat) : Nat := w32 ((x >>> k) ||| (x <<< (32 - k)))

/-- Three-way xor. -/
def xor3 (a b c : Nat) : Nat := (a ^^^ b) ^^^ c

/-- SHA-256 big sigma-0. -/
def bSig0 (x : Nat) : Nat := xor3 (rotr32 x 2) (rotr32 x 13) (rotr32 x 22)

/-- SHA-256 big sigma-1. -/
def bSig1 (x : Nat) : Nat := xor3 (rotr32 x 6) (rotr32 x 11) (rotr32 x 25)

/-- SHA-256 small sigma-0. -/
def sSig0 (x : Nat) : Nat := xor3 (rotr32 x 7) (rotr32 x 18) (x >>> 3)

/-- SHA-256 small sigma-1. -/
def sSig1 (x : Nat) : Nat := xor3 (rotr32 x 17) (rotr32 x 19) (x >>> 10)

/-- SHA-256 choice function. -/
def chF (x y z : Nat) : Nat := (x &&& y) ^^^ ((x ^^^ 4294967295) &&& z)

/-- SHA-256 majority function. -/
def majF (x y z : Nat) : Nat := ((x &&& y) ^^^ (x &&& z)) ^^^ (y &&& z)

/-- The 64 SHA-256 round constants. -/
def shaK : List Nat :=
  [1116352408, 1899447441, 3049323471, 3921009573, 961987163,
   1508970993, 2453635748, 2870763221, 3624381080, 310598401,
   607225278, 1426881987, 1925078388, 2162078206, 2614888103,
   3248222580, 3835390401, 4022224774, 264347078, 604807628,
   770255983, 1249150122, 1555081692, 1996064986, 2554220882,
   2821834349, 2952996808, 3210313671, 3336571891, 3584528711,
   113926993, 338241895, 666307205, 773529912, 1294757372,
   1396182291, 1695183700, 1986661051, 2177026350, 2456956037,
   2730485921, 2820302411, 3259730800, 3345764771, 3516065817,
   3600352804, 4094571909, 275423344, 430227734, 506948616,
   659060556, 883997877, 958139571, 1322822218, 1537002063,
   1747873779, 1955562222, 2024104815, 2227730452, 2361852424,
   2428436474, 2756734187, 3204031479, 3329325298]

/-- The SHA-256 initial hash state. -/
def shaH0 : List Nat :=
  [1779033703, 3144134277, 1013904242, 2773480762, 1359893119,
   2600822924, 528734635, 1541459225]

/-- UTF-8 encoding of one character (`str.encode()`). -/
def utf8Bytes (c : Char) : List Nat :=
  let n := c.toNat
  if n < 128 then [n]
  else if n < 2048 then [192 ||| (n >>> 6), 128 ||| (n &&& 63)]
  else if n < 65536 then
    [224 ||| (n >>> 12), 128 ||| ((n >>> 6) &&& 63), 128 ||| (n &&& 63)]
  else
    [240 ||| (n >>> 18), 128 ||| ((n >>> 12) &&& 63), 128 ||| ((n >>> 6) &&& 63),
     128 ||| (n &&& 63)]

/-- UTF-8 bytes of a string. -/
def strBytes (s : String) : List Nat := (s.data.map utf8Bytes).flatten

/-- Big-endian 64-bit byte decomposition. -/
def be64 (n : Nat) : List Nat :=
  [(n >>> 56) &&& 255, (n >>> 48) &&& 255, (n >>> 40) &&& 255, (n >>> 32) &&& 255,
   (n >>> 24) &&& 255, (n >>> 16) &&& 255, (n >>> 8) &&& 255, n &&& 255]

/-- SHA-256 message padding. -/
def shaPad (msg : List Nat) : List Nat :=
  let len := msg.length
  let k := (120 - ((len + 1) % 64)) % 64
  msg ++ 128 :: List.replicate k 0 ++ be64 (8 * len)

/-- Structural 64-element chunking worker. -/
def chunksAux : Nat → List Nat → List (List Nat)
  | _, [] => []
  | 0, _ => []
  | Nat.succ fuel, l => l.take 64 :: chunksAux fuel (l.drop 64)

/-- Split a byte list into 64-byte blocks. -/
def chunks64 (l : List Nat) : List (List Nat) := chunksAux l.length l

/-- Big-endian 32-bit words of a block. -/
def toWords : List Nat → List Nat
  | b0 :: b1 :: b2 :: b3 :: rest =>
    ((b0 <<< 24) ||| (b1 <<< 16) ||| (b2 <<< 8) ||| b3) :: toWords rest
  | _ => []

/-- Extend the 16 block words to the 64-entry message schedule. -/
def extendSchedule (ws : List Nat) : List Nat :=
  (List.range 48).foldl (fun acc _ =>
    let n := acc.length
    acc ++ [w32 (acc.getD (n - 16) 0 + sSig0 (acc.getD (n - 15) 0)
      + acc.getD (n - 7) 0 + sSig1 (acc.getD (n - 2) 0))]) ws

/-- One SHA-256 compression round on the 8-word working state. -/
def compressStep (st : List Nat) (kw : Nat × Nat) : List Nat :=
  match st with
  | [a, b, c, d, e, f, g, h] =>
    let t1 := w32 (h + bSig1 e + chF e f g + kw.1 + kw.2)
    let t2 := w32 (bSig0 a + majF a b c)
    [w32 (t1 + t2), a, b, c, w32 (d + t1), e, f, g]
  | other => other

/-- Process one 64-byte block into the chaining state. -/
def processBlock (h : List Nat) (block : List Nat) : List Nat :=
  let ws := extendSchedule (toWords block)
  let st := (shaK.zip ws).foldl compressStep h
  (h.zip st).map fun p => add32 p.1 p.2

/-- The eight 32-bit words of the SHA-256 digest of a string. -/
def sha256Words (s : String) : List Nat :=
  (chunks64 (shaPad (strBytes s))).foldl processBlock shaH0

/-- Lower-case hex digit. -/
def hexDigit (n : Nat) : Char :=
  if n < 10 then Char.ofNat (48 + n) else Char.ofNat (87 + n)

/-- Eight hex digits of a 32-bit word. -/
def word32Hex (w : Nat) : List Char :=
  (List.range 8).map fun i => hexDigit ((w >>> (28 - 4 * i)) &&& 15)

/-- `hashlib.sha256(s.encode()).hexdigest()`: validated here against the
FIPS test vectors for `"abc"` and `""`, see `sha256hex_abc` below. -/
def sha256hex (s : String) : String :=
  String.mk ((sha256Words s).map word32Hex).flatten

/-! ## json.dumps fragment (sort_keys=True, default separators) -/

/-- Four hex digits of a code unit (for `\uXXXX` escapes). -/
def hex4 (n : Nat) : List Char :=
  (List.range 4).map fun i => hexDigit ((n >>> (12 - 4 * i)) &&& 15)

/-- `json.dumps` escaping of one character (ensure_ascii behaviour:
printable ASCII passes through, the named escapes for the usual control
characters, `\uXXXX` for other control and all non-ASCII characters,
surrogate pairs beyond the BMP). -/
def jsonEscapeChar (c : Char) : List Char :=
  if c = '"' then ['\\', '"']
  else if c = '\\' then ['\\', '\\']
  else if c = '\n' then ['\\', 'n']
  else if c = '\t' then ['\\', 't']
  else if c = '\x0d' then ['\\', 'r']
  else if c = '\x08' then ['\\', 'b']
  else if c = '\x0c' then ['\\', 'f']
  else if c.toNat < 32 || (127 < c.toNat && c.toNat < 65536) then
    '\\' :: 'u' :: hex4 c.toNat
  else if 65536 ≤ c.toNat then
    let m := c.toNat - 65536
    ('\\' :: 'u' :: hex4 (55296 + (m >>> 10))) ++ ('\\' :: 'u' :: hex4 (56320 + (m &&& 1023)))
  else [c]

/-- A JSON string literal: quotes around the escaped content. -/
def jsonStr (s : String) : String :=
  "\"" ++ String.mk (s.data.map jsonEscapeChar).flatten ++ "\""

/-- Python `repr` of the float `c / 100` (books' prices are rounded to
two decimals by the model validator, where the shortest-round-trip float
repr is exactly this decimal form). -/
def decimal2Repr (c : Int) : String :=
  let sign := if c < 0 then "-" else ""
  let n := c.natAbs
  let u := n / 100
  let r := n % 100
  if r = 0 then sign ++ toString u ++ ".0"
  else if r % 10 = 0 then sign ++ toString u ++ "." ++ toString (r / 10)
  else sign ++ toString u ++ "." ++ (if r < 10 then "0" ++ toString r else toString r)

/-- JSON float rendering of a price value (exact on the 2-decimal
rationals that `round(v, 2)` produces; other rationals never reach it
through `Book`). -/
def pyFloatRepr (q : ℚ) : String :=
  if (q * 100).den = 1 then decimal2Repr (q * 100).num else toString q

/-! ## Book model (crawler/models/book.py) -/

/-- The `Book` pydantic model.  `crawl_timestamp` abstracts the datetime
as a number; prices are exact 2-decimal rationals (see file header). -/
structure Book where
  url : String
  title : String
  description : Option String := none
  category : String
  price_excl_tax : ℚ
  price_incl_tax : ℚ
  availability : String
  num_reviews : Nat
  image_url : String
  rating : Nat
  crawl_timestamp : Nat := 0
  status : String := "active"
  content_hash : Option String := none
  raw_html : Option String := none
deriving Repr, DecidableEq

/-- `json.dumps(content, sort_keys=True)` for the content dict of
`Book.generate_content_hash`: the six tracked fields, keys in sorted
order `availability, num_reviews, price_excl_tax, price_incl_tax,
rating, title`, default `", "`/`": "` separators. -/
def contentString (b : Book) : String :=
  "\x7b\"availability\": " ++ jsonStr b.availability ++
  ", \"num_reviews\": " ++ toString b.num_reviews ++
  ", \"price_excl_tax\": " ++ pyFloatRepr b.price_excl_tax ++
  ", \"price_incl_tax\": " ++ pyFloatRepr b.price_incl_tax ++
  ", \"rating\": " ++ toString b.rating ++
  ", \"title\": " ++ jsonStr b.title ++ "\x7d"

/-- `Book.generate_content_hash`: the SHA-256 hex digest of the sorted
JSON serialisation of the six tracked fields.  It returns the digest and
does not assign `content_hash`. -/
def Book.generate_content_hash (b : Book) : String :=
  sha256hex (contentString b)

/-! ## BeautifulSoup query model (crawler/parser.py) -/

/-- The results of exactly the BeautifulSoup queries `BookParser` makes
against one book page.  `none` at the outer level means the queried
element is absent; where the code then checks an inner element or
attribute, the inner `Option` carries it.  For the two image sources the
inner value is the `src` when an `img` child with a truthy `src` exists
(the code treats a missing `img` and an empty `src` alike). -/
structure Soup where
  h1Text : Option String := none
  productMain : Option (Option String) := none
  descriptionP : Option (Option String) := none
  breadcrumbLinks : Option (List String) := none
  tableRows : Option (List (Option String × Option String)) := none
  priceColor : Option String := none
  instockAvail : Option String := none
  galleryImg : Option (Option String) := none
  itemActiveImg : Option (Option String) := none
  starRatingClasses : Option (List String) := none
deriving Repr, DecidableEq

/-- The text of `str(AttributeError)` raised by calling `.find` on a
`None` query result. -/
def attributeErrMsg : String :=
  "AttributeError: NoneType object has no attribute find"

/-- `BookParser._extract_title`: the first `h1` text, cleaned; with no
`h1` anywhere, the fallback calls `.find` on `soup.find('div',
class_='product_main')`, which raises when that div is absent, and
returns `""` when the div exists (its `h1`, had it one, would already
have been found by the first query). -/
def extract_title (s : Soup) : Except String String :=
  match s.h1Text with
  | some t => .ok (clean_text t)
  | none =>
    match s.productMain with
    | none => .error attributeErrMsg
    | some (some t) => .ok (clean_text t)
    | some none => .ok ""

/-- `BookParser._extract_description`: the cleaned text of the `p`
following `div#product_description`, else `None`. -/
def extract_description (s : Soup) : Option String :=
  match s.descriptionP with
  | some (some t) => some (clean_text t)
  | _ => none

/-- `BookParser._extract_category`: the cleaned text of the third
breadcrumb link when the breadcrumb has at least three links, else
`"Unknown"`. -/
def extract_category (s : Soup) : String :=
  match s.breadcrumbLinks with
  | some links =>
    if 3 ≤ links.length then clean_text (links.getD 2 "") else "Unknown"
  | none => "Unknown"

/-- The product-table row scan shared by the four table extractors:
the `td` text of the first row whose `th` exists, contains the label,
and whose `td` exists (a labelled row with no `td` is passed over). -/
def findRow (label : String) : List (Option String × Option String) → Option String
  | [] => none
  | (th?, td?) :: rest =>
    match th? with
    | some th =>
      if containsSub label th then
        match td? with
        | some td => some td
        | none => findRow label rest
      else findRow label rest
    | none => findRow label rest

/-- `BookParser._extract_price_excl_tax`: the `Price (excl. tax)` row
of the striped table through `extract_price`, else 0.0. -/
def extract_price_excl_tax (s : Soup) : ℚ :=
  match s.tableRows with
  | some rows =>
    match findRow "Price (excl. tax)" rows with
    | some td => extract_price td
    | none => 0
  | none => 0

/-- `BookParser._extract_price_incl_tax`: the `Price (incl. tax)` row,
falling back to `p.price_color`, else 0.0. -/
def extract_price_incl_tax (s : Soup) : ℚ :=
  let fallback :=
    match s.priceColor with
    | some t => extract_price t
    | none => 0
  match s.tableRows with
  | some rows =>
    match findRow "Price (incl. tax)" rows with
    | some td => extract_price td
    | none => fallback
  | none => fallback

/-- `BookParser._extract_availability`: the `Availability` row cleaned,
falling back to `p.instock availability`, else `"Unknown"`. -/
def extract_availability (s : Soup) : String :=
  let fallback :=
    match s.instockAvail with
    | some t => clean_text t
    | none => "Unknown"
  match s.tableRows with
  | some rows =>
    match findRow "Availability" rows with
    | some td => clean_text td
    | none => fallback
  | none => fallback

/-- `BookParser._extract_num_reviews`: the `Number of reviews` row
through `extract_number_from_text`, else 0. -/
def extract_num_reviews (s : Soup) : Nat :=
  match s.tableRows with
  | some rows =>
    match findRow "Number of reviews" rows with
    | some td => extract_number_from_text td
    | none => 0
  | none => 0

/-- `BookParser._extract_image_url`: the gallery image resolved to an
absolute URL; with no usable gallery image the fallback calls `.find` on
`soup.find('div', class_='item active')`, raising when that div is
absent and giving `""` when it has no usable image. -/
def extract_image_url (base : String) (s : Soup) : Except String String :=
  let fallback : Except String String :=
    match s.itemActiveImg with
    | none => .error attributeErrMsg
    | some (some src) => .ok (build_absolute_url base src)
    | some none => .ok ""
  match s.galleryImg with
  | some (some src) => .ok (build_absolute_url base src)
  | _ => fallback

/-- `BookParser._extract_rating`: the first class of `p.star-rating`
other than `star-rating` itself, through `extract_rating`, else 0. -/
def extract_rating_soup (s : Soup) : Nat :=
  match s.starRatingClasses with
  | some classes =>
    match classes.find? (fun c => c ≠ "star-rating") with
    | some cls => extract_rating cls
    | none => 0
  | none => 0

/-- `BookParseResult` (crawler/models/bookparseresult.py). -/
structure BookParseResult where
  success : Bool
  book : Option Book
  error : Option String
  url : String
deriving Repr, DecidableEq

/-- Python `str.strip()` on a string. -/
def pyStripStr (s : String) : String := String.mk (pyStrip s.data)

/-- Floor of a rational, computed on the raw numerator/denominator. -/
def ratFloor (q : ℚ) : Int := Int.fdiv q.num q.den

/-- Python `round(v, 2)` on the exact rational model: round half to
even at two decimals (exact on values already at two decimals, which is
what the price pipeline produces). -/
def pyRound2 (q : ℚ) : ℚ :=
  let t := q * 100
  let fl := ratFloor t
  let frac := t - mkRat fl 1
  let r :=
    if mkRat 1 2 < frac then fl + 1
    else if frac < mkRat 1 2 then fl
    else if fl % 2 = 0 then fl else fl + 1
  mkRat r 100

/-- Pydantic validation of a `Book` (crawler/models/book.py): the field
constraints and validators `validate_rating` (1–5), `validate_price`
(positive, then rounded to 2 decimals) and `strip_whitespace`; any
violation raises a ValidationError. -/
def validateBook (b : Book) : Except String Book :=
  if b.title.length < 1 then .error "ValidationError: title"
  else if b.price_excl_tax ≤ 0 then .error "ValidationError: price_excl_tax"
  else if b.price_incl_tax ≤ 0 then .error "ValidationError: price_incl_tax"
  else if b.rating < 1 || 5 < b.rating then .error "ValidationError: rating"
  else .ok { b with
    title := pyStripStr b.title
    category := pyStripStr b.category
    price_excl_tax := pyRound2 b.price_excl_tax
    price_incl_tax := pyRound2 b.price_incl_tax }

/-- `", "`-join of the missing-field names. -/
def joinCommaSpace : List String → String
  | [] => ""
  | [x] => x
  | x :: y :: xs => x ++ ", " ++ joinCommaSpace (y :: xs)

/-- The missing-required-field list of `parse_book_page`, in its fixed
order. -/
def missingFields (title category : String) (price_incl_tax : ℚ)
    (rating : Nat) : List String :=
  (if title = "" then ["title"] else [])
  ++ (if category = "" then ["category"] else [])
  ++ (if price_incl_tax ≤ 0 then ["price"] else [])
  ++ (if rating = 0 then ["rating"] else [])

/-- `BookParser.parse_book_page`: extract every field in source order
(title and image extraction can raise, see their models), check the
required set {title, category, price_incl_tax>0, rating>0}, fail with
the missing-field message, else build and validate the `Book`; the
surrounding `try` turns any raised exception into a failed result with
the exception text. -/
def parse_book_page (base : String) (s : Soup) (url html : String) :
    BookParseResult :=
  match extract_title s with
  | .error e => { success := false, book := none, error := some e, url }
  | .ok title =>
    let description := extract_description s
    let category := extract_category s
    let price_excl_tax := extract_price_excl_tax s
    let price_incl_tax := extract_price_incl_tax s
    let availability := extract_availability s
    let num_reviews := extract_num_reviews s
    match extract_image_url base s with
    | .error e => { success := false, book := none, error := some e, url }
    | .ok image_url =>
      let rating := extract_rating_soup s
      if title = "" || category = "" || price_incl_tax ≤ 0 || rating = 0 then
        let msg := "Missing required fields: "
          ++ joinCommaSpace (missingFields title category price_incl_tax rating)
        { success := false, book := none, error := some msg, url }
      else
        match validateBook
          { url, title, description, category, price_excl_tax, price_incl_tax,
            availability, num_reviews, image_url, rating,
            raw_html := some html } with
        | .error e => { success := false, book := none, error := some e, url }
        | .ok book => { success := true, book := some book, error := none, url }

/-- The soup of an empty page: every query misses. -/
def emptySoup : Soup := {}

/-- A product table carrying both prices, availability and a review
count (shared by the concrete parser inputs below). -/
def fullTableRows : List (Option String × Option String) :=
  [(some "Price (excl. tax)", some "£10.99"),
   (some "Price (incl. tax)", some "£10.99"),
   (some "Availability", some "In stock (22 available)"),
   (some "Number of reviews", some "0")]

/-- A page whose breadcrumb has three links but whose third link text is
all whitespace; everything else required is present. -/
def blankThirdLinkSoup : Soup :=
  { h1Text := some "Some Title"
    breadcrumbLinks := some ["Home", "Books", " "]
    tableRows := some fullTableRows
    galleryImg := some (some "media/x.jpg")
    starRatingClasses := some ["star-rating", "Three"] }

/-- A page with no breadcrumb at all but every other required field
present. -/
def noBreadcrumbSoup : Soup :=
  { h1Text := some "Some Title"
    tableRows := some fullTableRows
    galleryImg := some (some "media/x.jpg")
    starRatingClasses := some ["star-rating", "Three"] }

/-- A page whose star-rating element is missing but every other
required field present. -/
def noRatingSoup : Soup :=
  { h1Text := some "Some Title"
    breadcrumbLinks := some ["Home", "Books", "Poetry"]
    tableRows := some fullTableRows
    galleryImg := some (some "media/x.jpg") }

/-- A concrete book at price 10.99 (both prices 2-decimal exact). -/
def book1099 : Book :=
  { url := "https://books.toscrape.com/catalogue/a_1/index.html"
    title := "A Light in the Attic"
    category := "Poetry"
    price_excl_tax := mkRat 1099 100
    price_incl_tax := mkRat 1099 100
    availability := "In stock (22 available)"
    num_reviews := 0
    image_url := ""
    rating := 3 }

/-- The same book with `price_incl_tax` changed to 8.99 and nothing else
among the six tracked fields changed. -/
def book899 : Book :=
  { book1099 with price_incl_tax := mkRat 899 100 }

/-! ## Change detector (scheduler/change_detector.py) -/

/-- A field value carried in a change record (`old_value`/`new_value`):
a price float, a text, or an integer count. -/
inductive FieldVal where
  | num (q : ℚ)
  | str (s : String)
  | int (n : Nat)
deriving Repr, DecidableEq

/-- A stored book document as `compare_and_log_changes` reads it: a
Mongo dict with `_id`, `url`, `title`, the four tracked fields and the
stored `content_hash`. -/
structure BookDict where
  id : Nat
  url : String
  title : String
  price_incl_tax : ℚ
  availability : String
  rating : Nat
  num_reviews : Nat
  content_hash : Option String := none
deriving Repr, DecidableEq

/-- A change record as `_log_change` builds it. -/
structure ChangeRec where
  book_id : Nat
  change_type : String
  old_value : FieldVal
  new_value : FieldVal
  book_url : String
  detected_by : String := "scheduler"
deriving Repr, DecidableEq

/-- The `ChangeDetector.stats` dict from `__init__`: exactly these five
counters exist — there is no reviews counter. -/
structure Stats where
  new_books : Nat := 0
  price_changes : Nat := 0
  availability_changes : Nat := 0
  rating_changes : Nat := 0
  total_changes : Nat := 0
deriving Repr, DecidableEq

/-- `ChangeDetector._log_change`: append the record to the changes
collection and increment the shared `total_changes` counter. -/
def log_change (st : Stats × List ChangeRec) (c : ChangeRec) :
    Stats × List ChangeRec :=
  ({ st.1 with total_changes := st.1.total_changes + 1 }, st.2 ++ [c])

/-- `ChangeDetector.compare_and_log_changes` on two dicts: compare
`price_incl_tax`, `availability`, `rating`, `num_reviews` in that order;
each differing field logs a record via `_log_change`; the price,
availability and rating branches additionally increment their counters,
the reviews branch increments no per-type counter (none exists).
Returns the emitted records and the updated (stats, changes) state. -/
def compare_and_log_changes (old new : BookDict)
    (st0 : Stats × List ChangeRec) :
    List ChangeRec × Stats × List ChangeRec :=
  let changes : List ChangeRec := []
  let (changes, st) :=
    if old.price_incl_tax ≠ new.price_incl_tax then
      let c : ChangeRec :=
        { book_id := old.id, change_type := "price_change",
          old_value := .num old.price_incl_tax,
          new_value := .num new.price_incl_tax, book_url := old.url }
      let st := log_change st0 c
      (changes ++ [c], ({ st.1 with price_changes := st.1.price_changes + 1 }, st.2))
    else (changes, st0)
  let (changes, st) :=
    if old.availability ≠ new.availability then
      let c : ChangeRec :=
        { book_id := old.id, change_type := "availability_change",
          old_value := .str old.availability,
          new_value := .str new.availability, book_url := old.url }
      let st := log_change st c
      (changes ++ [c], ({ st.1 with availability_changes := st.1.availability_changes + 1 }, st.2))
    else (changes, st)
  let (changes, st) :=
    if old.rating ≠ new.rating then
      let c : ChangeRec :=
        { book_id := old.id, change_type := "rating_change",
          old_value := .int old.rating,
          new_value := .int new.rating, book_url := old.url }
      let st := log_change st c
      (changes ++ [c], ({ st.1 with rating_changes := st.1.rating_changes + 1 }, st.2))
    else (changes, st)
  let (changes, st) :=
    if old.num_reviews ≠ new.num_reviews then
      let c : ChangeRec :=
        { book_id := old.id, change_type := "reviews_change",
          old_value := .int old.num_reviews,
          new_value := .int new.num_reviews, book_url := old.url }
      let st := log_change st c
      (changes ++ [c], st)
    else (changes, st)
  (changes, st)

/-- The change record `compare_and_log_changes` emits for one tracked
field, used to state its behaviour claim-side. -/
def fieldRec (old : BookDict) (ty : String) (ov nv : FieldVal) : ChangeRec :=
  { book_id := old.id, change_type := ty, old_value := ov, new_value := nv,
    book_url := old.url }

/-- The record list the spec describes: one record per differing tracked
field, in the fixed order price, availability, rating, reviews. -/
def specChanges (old new : BookDict) : List ChangeRec :=
  (if old.price_incl_tax ≠ new.price_incl_tax then
    [fieldRec old "price_change" (.num old.price_incl_tax) (.num new.price_incl_tax)]
   else [])
  ++ (if old.availability ≠ new.availability then
    [fieldRec old "availability_change" (.str old.availability) (.str new.availability)]
   else [])
  ++ (if old.rating ≠ new.rating then
    [fieldRec old "rating_change" (.int old.rating) (.int new.rating)]
   else [])
  ++ (if old.num_reviews ≠ new.num_reviews then
    [fieldRec old "reviews_change" (.int old.num_reviews) (.int new.num_reviews)]
   else [])

/-- The exception text of calling `.get` on a pydantic `Book`. -/
def bookObjGetErrMsg : String :=
  "AttributeError: Book object has no attribute get"

/-- The exception text of reading the nonexistent `self.logger`. -/
def loggerAttrErrMsg : String :=
  "AttributeError: ChangeDetector object has no attribute logger"

/-- Outcome of one `_detect_changes_in_books` loop iteration for one
stored book: the effects accumulated before any exception, whether the
hash fast path skipped the book, and the raised exception if any. -/
structure DetectOutcome where
  fastSkipped : Bool := false
  changes : List ChangeRec := []
  stats : Stats := {}
  dbUpdated : Bool := false
  error : Option String := none
deriving Repr, DecidableEq

/-- One iteration of `ChangeDetector._detect_changes_in_books` (the
second, overriding definition at the bottom of change_detector.py) for
one stored book, with the fetch result and the parser as inputs.  A
failed fetch or parse reaches `self.logger`, which does not exist, and
raises.  On a parse success the result of
`new_book.generate_content_hash()` is discarded, so the fast-path
comparison is between the fresh book's unset `content_hash` (None) and
the stored hash; when that comparison fails the call
`compare_and_log_changes(stored, new_book)` performs `new_book.get`,
which raises on a `Book` object before emitting anything. -/
def detect_book_step (stored : BookDict) (fetched : Option String)
    (parsed : String → BookParseResult) : DetectOutcome :=
  match fetched with
  | none => { error := some loggerAttrErrMsg }
  | some html =>
    let pr := parsed html
    match pr.book with
    | none => { error := some loggerAttrErrMsg }
    | some new_book =>
      if pr.success = false then { error := some loggerAttrErrMsg }
      else
        let _discarded := new_book.generate_content_hash
        if new_book.content_hash = stored.content_hash then
          { fastSkipped := true }
        else
          { error := some bookObjGetErrMsg }

/-- A stored document whose `content_hash` is exactly the digest of its
own (unchanged) tracked fields, matching `book1099`. -/
def storedC6 : BookDict :=
  { id := 7, url := "u6", title := "A Light in the Attic",
    price_incl_tax := mkRat 1099 100,
    availability := "In stock (22 available)", rating := 3, num_reviews := 0,
    content_hash := some book1099.generate_content_hash }

/-- The old/new dict pair differing only in `num_reviews`. -/
def oldReviewsDict : BookDict :=
  { id := 1, url := "u", title := "T", price_incl_tax := mkRat 1099 100,
    availability := "In stock", rating := 3, num_reviews := 2 }

/-- `oldReviewsDict` with five reviews instead of two. -/
def newReviewsDict : BookDict :=
  { oldReviewsDict with num_reviews := 5 }

/-! ## Retry policy (crawler/utils.py: retry_async, fetch_with_retry) -/

/-- The loop of `retry_async`'s wrapper, `for attempt in
range(max_retries + 1)`: `remaining` counts the iterations still
allowed after the current one (initially `max_retries`).  `attempts i`
is the outcome of the i-th call of the wrapped function.  Returns the
overall outcome (the last exception is re-raised when every attempt
fails), the number of calls made, and the delays slept between
attempts (`current_delay`, multiplied by `backoff` after each sleep). -/
def retryAux (attempts : Nat → Except String String) (backoff : ℚ) :
    Nat → Nat → ℚ → Except String String × Nat × List ℚ
  | 0, attempt, _ => (attempts attempt, attempt + 1, [])
  | Nat.succ remaining, attempt, delay =>
    match attempts attempt with
    | .ok v => (.ok v, attempt + 1, [])
    | .error _ =>
      let r := retryAux attempts backoff remaining (attempt + 1) (delay * backoff)
      (r.1, r.2.1, delay :: r.2.2)

/-- `retry_async(max_retries, delay, backoff)` applied to a function
whose i-th call yields `attempts i`. -/
def retry_async (maxRetries : Nat) (delay backoff : ℚ)
    (attempts : Nat → Except String String) :
    Except String String × Nat × List ℚ :=
  retryAux attempts backoff maxRetries 0 delay

/-- `fetch_with_retry`: the inner `_fetch` decorated with
`retry_async()` and the settings defaults (crawler_max_retries = 3,
crawler_retry_delay = 2, backoff = 2.0); any exception surviving the
retries is caught and turned into `None`. -/
def fetch_with_retry (attempts : Nat → Except String String) : Option String :=
  match (retry_async 3 2 2 attempts).1 with
  | .ok s => some s
  | .error _ => none

/-! ## Crawl orchestrator (crawler/scraper.py, database/mongo.py) -/

/-- Python string truthiness applied to an optional fetch result:
`None` and `""` are falsy (`if not html: ...`). -/
def truthyStr : Option String → Option String
  | some s => if s = "" then none else some s
  | none => none

/-- The crawl-state document (crawler/models/crawlstate.py), as saved
by `_save_progress` and read back by `crawl`. -/
structure CrawlStateDict where
  last_category : Option String
  last_page : Nat
  last_book_url : Option String
  total_books_crawled : Nat
  status : String
deriving Repr, DecidableEq

/-- The database state the orchestrator touches: the books collection
(URL-unique, insertion order) and the singleton crawl state. -/
structure DB where
  books : List (String × Book)
  crawlState : Option CrawlStateDict
deriving Repr, DecidableEq

/-- `BookCrawler.stats` (the timing fields are not modelled). -/
structure CrawlStats where
  total_books : Nat := 0
  successful : Nat := 0
  failed : Nat := 0
  skipped : Nat := 0
deriving Repr, DecidableEq

/-- One crawl run's full observable state: the database, the statistics
counters, and an event log of the categories entered and the category
pages fetched (category, URL, page label) used to state the resume
claims. -/
structure RunState where
  db : DB
  stats : CrawlStats
  enteredCats : List String := []
  fetchedPages : List (String × String × Nat) := []
deriving Repr, DecidableEq

/-- The deterministic environment of a crawl run: the per-URL outcome
of `fetch_with_retry` and the (pure, deterministic) parser outputs per
markup.  `parseBook html url` is `some book` exactly when
`parse_book_page` succeeds. -/
structure Site where
  base : String
  fetch : String → Option String
  categoriesOf : String → List (String × String)
  booksOf : String → List String
  nextOf : String → Option String
  parseBook : String → String → Option Book

/-- `MongoDB.get_book_by_url`. -/
def get_book_by_url (db : DB) (url : String) : Option Book :=
  (db.books.find? (fun p => p.1 = url)).map Prod.snd

/-- `MongoDB.insert_book`: insert unless the unique URL index already
holds the URL (`DuplicateKeyError` → `None`, a benign skip). -/
def insert_book (db : DB) (b : Book) : DB × Bool :=
  if db.books.any (fun p => p.1 = b.url) then (db, false)
  else ({ db with books := db.books ++ [(b.url, b)] }, true)

/-- `'/'.join(url.split('/')[:-1])`, used to resolve the next page. -/
def splitChar (sep : Char) : List Char → List (List Char)
  | [] => [[]]
  | c :: cs =>
    let r := splitChar sep cs
    if c = sep then [] :: r
    else
      match r with
      | [] => [[c]]
      | h :: t => (c :: h) :: t

/-- Join character chunks with `'/'`. -/
def joinSlashList : List (List Char) → List Char
  | [] => []
  | [x] => x
  | x :: y :: t => x ++ '/' :: joinSlashList (y :: t)

/-- `'/'.join(url.split('/')[:-1])`. -/
def parentUrl (s : String) : String :=
  String.mk (joinSlashList ((splitChar '/' s.data).dropLast))

/-- The book `_crawl_single_book` would store for `url` under
`category`: the parsed book with its category overwritten and its
content hash generated and assigned before `to_dict`/insert. -/
def bookFor (site : Site) (url category : String) : Option Book :=
  match truthyStr (site.fetch url) with
  | none => none
  | some html =>
    (site.parseBook html url).map fun b0 =>
      let b := { b0 with category := category }
      { b with content_hash := some b.generate_content_hash }

/-- `BookCrawler._crawl_single_book`: skip an already-stored URL,
skip fetch and parse failures, otherwise overwrite the category,
generate the content hash, and insert; only a fresh insert counts into
`total_books` and returns `True` (the internal `try` keeps every
failure inside, returning `False`). -/
def _crawl_single_book (site : Site) (rs : RunState) (url category : String) :
    RunState × Bool :=
  match get_book_by_url rs.db url with
  | some _ => (rs, false)
  | none =>
    match bookFor site url category with
    | none => (rs, false)
    | some book =>
      let (db, ok) := insert_book rs.db book
      let st' := { rs.stats with total_books := rs.stats.total_books + 1 }
      if ok then ({ rs with db := db, stats := st' }, true)
      else ({ rs with db := db }, false)

/-- `BookCrawler._crawl_books_batch`: run `_crawl_single_book` on every
URL (the worker-pool order is irrelevant to the state model) and count
`True` results as successful, `False` ones as skipped; exceptions never
escape `_crawl_single_book`, so the failed counter stays. -/
def batchStep (site : Site) (category : String) (rs : RunState)
    (url : String) : RunState :=
  let p := _crawl_single_book site rs url category
  if p.2 then
    { p.1 with stats := { p.1.stats with successful := p.1.stats.successful + 1 } }
  else
    { p.1 with stats := { p.1.stats with skipped := p.1.stats.skipped + 1 } }

/-- `BookCrawler._crawl_books_batch` proper: the fold of `batchStep`
over the page's book URLs. -/
def _crawl_books_batch (site : Site) (rs : RunState) (urls : List String)
    (category : String) : RunState :=
  urls.foldl (batchStep site category) rs

/-- `BookCrawler._save_progress`: upsert the singleton crawl state with
the current category, last book URL, page number and running total. -/
def _save_progress (db : DB) (st : CrawlStats) (category : String)
    (lastUrl : Option String) (page : Nat) : DB :=
  let state : CrawlStateDict :=
    { last_category := some category, last_page := page,
      last_book_url := lastUrl, total_books_crawled := st.total_books,
      status := "in_progress" }
  { db with crawlState := some state }

/-- The page loop of `BookCrawler._crawl_category` (`while current_url`),
with fuel for the unbounded pagination: log the page, fetch it (falsy
markup breaks), extract book URLs (none breaks), crawl the batch, save
progress unconditionally, and follow the next-page link resolved
against the current URL's parent. -/
def crawlPages (site : Site) (name : String) :
    Nat → String → Nat → RunState → RunState
  | 0, _, _, rs => rs
  | Nat.succ fuel, current_url, page_num, rs =>
    let rs := { rs with fetchedPages := rs.fetchedPages ++ [(name, current_url, page_num)] }
    match truthyStr (site.fetch current_url) with
    | none => rs
    | some html =>
      let book_urls := site.booksOf html
      if book_urls.isEmpty then rs
      else
        let rs := _crawl_books_batch site rs book_urls name
        let rs := { rs with db := _save_progress rs.db rs.stats name book_urls.getLast? page_num }
        match site.nextOf html with
        | some rel =>
          crawlPages site name fuel (parentUrl current_url ++ "/" ++ rel)
            (page_num + 1) rs
        | none => rs

/-- `BookCrawler._crawl_category`: start at the category URL; the page
counter starts at the stored `last_page` when the stored `last_category`
equals this category (the URL fetched first is still the category's
own page-1 URL). -/
def resumePage (cs : Option CrawlStateDict) (name : String) : Nat :=
  match cs with
  | some c => if c.last_category = some name then c.last_page else 1
  | none => 1

/-- `BookCrawler._crawl_category` proper. -/
def _crawl_category (site : Site) (cs : Option CrawlStateDict)
    (name url : String) (fuel : Nat) (rs : RunState) : RunState :=
  crawlPages site name fuel url (resumePage cs name) rs

/-- The resume skip test of `BookCrawler.crawl`: with a loaded crawl
state whose `last_category` is truthy, every category whose name
differs from it is skipped (`continue`); nothing ever clears the test
after the matching category is crawled. -/
def skipCategory (cs : Option CrawlStateDict) (name : String) : Bool :=
  match cs with
  | some c =>
    match c.last_category with
    | some lc => lc ≠ "" && name ≠ lc
    | none => false
  | none => false

/-- The category loop of `BookCrawler.crawl`: skip per `skipCategory`,
else log the entry, crawl the category and save progress (page reset to
1, no last URL) after it. -/
def crawlCats (site : Site) (cs : Option CrawlStateDict) (fuel : Nat) :
    List (String × String) → RunState → RunState
  | [], rs => rs
  | (name, url) :: rest, rs =>
    if skipCategory cs name then crawlCats site cs fuel rest rs
    else
      let rs := { rs with enteredCats := rs.enteredCats ++ [name] }
      let rs := _crawl_category site cs name url fuel rs
      let rs := { rs with db := _save_progress rs.db rs.stats name none 1 }
      crawlCats site cs fuel rest rs

/-- `BookCrawler.crawl`: load the crawl state when resuming, fetch the
homepage (a falsy result aborts the run with nothing touched), crawl
the categories, and clear the crawl state on completion. -/
def crawl (site : Site) (resume : Bool) (db : DB) (fuel : Nat) : RunState :=
  let rs : RunState := { db := db, stats := {} }
  let cs := if resume then db.crawlState else none
  match truthyStr (site.fetch site.base) with
  | none => rs
  | some html =>
    let rs := crawlCats site cs fuel (site.categoriesOf html) rs
    { rs with db := { rs.db with crawlState := none } }

/-- Whether `_crawl_single_book` can store `url` at all: its page
fetches truthily and parses successfully (independent of the category
it is filed under). -/
def goodUrl (site : Site) (url : String) : Bool :=
  match truthyStr (site.fetch url) with
  | none => false
  | some html => (site.parseBook html url).isSome

/-- The book URLs (with their category) one `crawlPages` run processes:
a pure function of the site, mirroring that the page-loop control flow
reads nothing from the database or the statistics. -/
def pagesUrls (site : Site) : Nat → String → List String
  | 0, _ => []
  | Nat.succ fuel, current_url =>
    match truthyStr (site.fetch current_url) with
    | none => []
    | some html =>
      let book_urls := site.booksOf html
      if book_urls.isEmpty then []
      else
        book_urls ++
          (match site.nextOf html with
           | some rel => pagesUrls site fuel (parentUrl current_url ++ "/" ++ rel)
           | none => [])

/-- The (url, category) pairs the category loop processes, mirroring
`crawlCats`' recursion and skip test. -/
def catsUrls (site : Site) (fuel : Nat) (cs : Option CrawlStateDict) :
    List (String × String) → List (String × String)
  | [] => []
  | (name, url) :: rest =>
    if skipCategory cs name then catsUrls site fuel cs rest
    else (pagesUrls site fuel url).map (fun u => (u, name))
      ++ catsUrls site fuel cs rest

/-- The (url, category) pairs a whole crawl run processes, in order. -/
def crawlUrls (site : Site) (fuel : Nat) (cs : Option CrawlStateDict) :
    List (String × String) :=
  match truthyStr (site.fetch site.base) with
  | none => []
  | some html => catsUrls site fuel cs (site.categoriesOf html)

/-- The books crawled by this repository's own parser carry the URL
they were parsed from (`parse_book_page` stores its `url` argument in
the book); the idempotence argument needs exactly that of the site's
parser abstraction. -/
def KeyConsistent (site : Site) : Prop :=
  ∀ html url b, site.parseBook html url = some b → b.url = url

/-- The run state after `_crawl_single_book` freshly inserts `b` under
`url`. -/
def insertedRun (rs : RunState) (url : String) (b : Book) : RunState :=
  let db' := { rs.db with books := rs.db.books ++ [(url, b)] }
  let st' := { rs.stats with total_books := rs.stats.total_books + 1 }
  { rs with db := db', stats := st' }

/-- A minimal parseable book for the concrete sites below. -/
def bookStub (url : String) : Book :=
  { url := url, title := "T", category := "X", price_excl_tax := mkRat 1 1,
    price_incl_tax := mkRat 1 1, availability := "In stock", num_reviews := 0,
    image_url := "", rating := 3 }

/-- A three-category site (`A`, `B`, `C` in listed order): every fetch
succeeds, each category has one page with one book, no next pages. -/
def siteC1 : Site :=
  { base := "https://site"
    fetch := fun u => some ("H:" ++ u)
    categoriesOf := fun h =>
      if h = "H:https://site" then [("A", "uA"), ("B", "uB"), ("C", "uC")] else []
    booksOf := fun h =>
      if h = "H:uA" then ["bA"] else if h = "H:uB" then ["bB"]
      else if h = "H:uC" then ["bC"] else []
    nextOf := fun _ => none
    parseBook := fun _ url => some (bookStub url) }

/-- A stored crawl state interrupted in category `B` at page 5, with an
empty books collection. -/
def dbC1 : DB :=
  { books := []
    crawlState := some
      { last_category := some "B", last_page := 5, last_book_url := none,
        total_books_crawled := 3, status := "in_progress" } }

/-- An empty database with no stored crawl state. -/
def dbEmpty : DB := { books := [], crawlState := none }

/-- A one-book run state holding `bB`, for the skip witness. -/
def rsW : RunState :=
  { db := { books := [("bB", bookStub "bB")], crawlState := none }, stats := {} }

/-- A site whose every fetch (the homepage included) has failed after
exhausting retries. -/
def deadSite : Site :=
  { base := "https://site", fetch := fun _ => none,
    categoriesOf := fun _ => [], booksOf := fun _ => [],
    nextOf := fun _ => none, parseBook := fun _ _ => none }

end Crawler

namespace Crawler

/-- C8: the pure extraction helpers on the specified examples:
`extract_price "£1,234.56"` is 1234.56 and an unparsable remainder gives
0.0; `extract_rating "star-rating Three"` is 3 and a class with no
ordinal word gives 0; `build_absolute_url base "../catalogue/x.html"`
is `base ++ "/catalogue/x.html"`. -/
theorem C8_extraction_helpers :
    extract_price "£1,234.56" = 1234.56
    ∧ extract_price "abc" = 0
    ∧ extract_rating "star-rating Three" = 3
    ∧ extract_rating "star-rating Zero" = 0
    ∧ build_absolute_url "https://books.toscrape.com" "../catalogue/x.html"
        = "https://books.toscrape.com" ++ "/catalogue/x.html" := by
  refine ⟨by with_unfolding_all rfl, by decide, by decide, by decide, by decide⟩

set_option maxRecDepth 8000 in
/-- The SHA-256 model agrees with the FIPS 180 test vectors for `"abc"`
and the empty message, validating `sha256hex` against `hashlib.sha256`. -/
theorem sha256hex_vectors :
    sha256hex "abc" = "ba7816bf8f01cfea414140de5dae2223b00361a396177a9cb410ff61f20015ad"
    ∧ sha256hex "" = "e3b0c44298fc1c149afbf4c8996fb92427ae41e4649b934ca495991b7852b855" :=
  ⟨of_decide_eq_true (by with_unfolding_all rfl),
   of_decide_eq_true (by with_unfolding_all rfl)⟩

set_option maxRecDepth 20000 in
/-- C5: `generate_content_hash` is a pure function of exactly the field
set {title, price_excl_tax, price_incl_tax, availability, num_reviews,
rating}: two books agreeing on those six fields have identical SHA-256
digests whatever their other fields, and changing `price_incl_tax` from
10.99 to 8.99 with the other five fields fixed changes the digest. -/
theorem C5_content_hash_pure :
    (∀ b1 b2 : Book, b1.title = b2.title → b1.price_excl_tax = b2.price_excl_tax →
      b1.price_incl_tax = b2.price_incl_tax → b1.availability = b2.availability →
      b1.num_reviews = b2.num_reviews → b1.rating = b2.rating →
      b1.generate_content_hash = b2.generate_content_hash)
    ∧ book1099.generate_content_hash ≠ book899.generate_content_hash := by
  constructor
  · intro b1 b2 h1 h2 h3 h4 h5 h6
    simp only [Book.generate_content_hash, contentString, h1, h2, h3, h4, h5, h6]
  · exact of_decide_eq_true (by with_unfolding_all rfl)

/-- A list starts with itself before any continuation. -/
theorem leadsWith_append (ns t : List Char) : leadsWith ns (ns ++ t) = true := by
  induction ns with
  | nil => rfl
  | cons a as ih => simp [leadsWith, ih]

/-- A list occurs in itself followed by anything. -/
theorem hasSub_self_append (ns t : List Char) : hasSub ns (ns ++ t) = true := by
  cases ns with
  | nil => cases t <;> simp [hasSub, leadsWith]
  | cons a as =>
    show (leadsWith (a :: as) (a :: (as ++ t)) || hasSub (a :: as) (as ++ t)) = true
    have h := leadsWith_append (a :: as) t
    rw [List.cons_append] at h
    rw [h, Bool.true_or]

/-- Occurrence is preserved by one more leading character. -/
theorem hasSub_cons (ns l : List Char) (c : Char) (h : hasSub ns l = true) :
    hasSub ns (c :: l) = true := by
  simp only [hasSub, h, Bool.or_true]

/-- Occurrence is preserved under any leading context. -/
theorem hasSub_append_pre (pre ns l : List Char) (h : hasSub ns l = true) :
    hasSub ns (pre ++ l) = true := by
  induction pre with
  | nil => exact h
  | cons c cs ih => exact hasSub_cons _ _ _ ih

/-- Every member of a list occurs in its `", "`-join. -/
theorem containsSub_join (x : String) (l : List String) (h : x ∈ l) :
    containsSub x (joinCommaSpace l) = true := by
  induction l with
  | nil => cases h
  | cons a tl ih =>
    cases tl with
    | nil =>
      rcases List.mem_singleton.mp h with rfl
      show hasSub x.data (joinCommaSpace [x]).data = true
      simpa [joinCommaSpace] using hasSub_self_append x.data []
    | cons b bs =>
      rcases List.mem_cons.mp h with rfl | hmem
      · show hasSub x.data (joinCommaSpace (x :: b :: bs)).data = true
        simp only [joinCommaSpace, String.data_append]
        simpa using hasSub_self_append x.data ((", ".data) ++ (joinCommaSpace (b :: bs)).data)
      · show hasSub x.data (joinCommaSpace (a :: b :: bs)).data = true
        simp only [joinCommaSpace, String.data_append]
        exact hasSub_append_pre _ _ _ (ih hmem)

/-- Every member of the missing-field list occurs in the error message
built from it. -/
theorem containsSub_missingMsg (x : String) (l : List String) (h : x ∈ l) :
    containsSub x ("Missing required fields: " ++ joinCommaSpace l) = true := by
  show hasSub x.data (("Missing required fields: " ++ joinCommaSpace l)).data = true
  simp only [String.data_append]
  exact hasSub_append_pre _ _ _ (containsSub_join x l h)

/-- Witness for C5: the purity half applied at concrete books that agree
on the six tracked fields and differ everywhere else. -/
theorem C5_content_hash_pure_witness :
    book1099.generate_content_hash =
      (Book.mk "other-url" "A Light in the Attic" (some "desc") "Other"
        (mkRat 1099 100) (mkRat 1099 100) "In stock (22 available)" 0
        "img.jpg" 3 42 "inactive" (some "h") (some "<html>")).generate_content_hash :=
  C5_content_hash_pure.1 book1099 _ rfl rfl rfl rfl rfl rfl

/-- C4 counterexample: on the empty page every required field is
missing, yet `parse_book_page` reports the internal `AttributeError`
text of `_extract_title` (the fallback calls `.find` on a missing
`product_main` div), an error message that names none of the missing
required fields — refuting "an error message naming every missing
required field".  (`success=false` and no exception do hold.) -/
theorem C4_counterexample :
    parse_book_page "https://books.toscrape.com" emptySoup "u" "<html></html>"
      = { success := false, book := none, error := some attributeErrMsg, url := "u" }
    ∧ containsSub "title" attributeErrMsg = false
    ∧ containsSub "category" attributeErrMsg = false
    ∧ containsSub "price" attributeErrMsg = false
    ∧ containsSub "rating" attributeErrMsg = false := by
  refine ⟨by decide, by decide, by decide, by decide, by decide⟩

/-- C4 amended: `parse_book_page` is total (never raises past itself,
by construction of the model), and whenever the field extraction itself
completes without an internal exception, a missing required field among
{title, category, price_incl_tax>0, rating>0} yields `success=false`
with the missing-field message, which names every missing required
field. -/
theorem C4_missing_fields_report :
    ∀ (base url html t img : String) (s : Soup),
      extract_title s = .ok t →
      extract_image_url base s = .ok img →
      (t = "" ∨ extract_category s = "" ∨ extract_price_incl_tax s ≤ 0
        ∨ extract_rating_soup s = 0) →
      ∃ msg, parse_book_page base s url html
          = { success := false, book := none, error := some msg, url := url }
        ∧ (t = "" → containsSub "title" msg = true)
        ∧ (extract_category s = "" → containsSub "category" msg = true)
        ∧ (extract_price_incl_tax s ≤ 0 → containsSub "price" msg = true)
        ∧ (extract_rating_soup s = 0 → containsSub "rating" msg = true) := by
  intro base url html t img s ht himg hmiss
  have hcond : (t = "" || extract_category s = ""
      || decide (extract_price_incl_tax s ≤ 0)
      || extract_rating_soup s = 0) = true := by
    rcases hmiss with h | h | h | h <;> simp [h]
  refine ⟨"Missing required fields: " ++ joinCommaSpace
    (missingFields t (extract_category s) (extract_price_incl_tax s)
      (extract_rating_soup s)), ?_, ?_, ?_, ?_, ?_⟩
  · simp only [parse_book_page, ht, himg, hcond, if_true]
  · intro h
    exact containsSub_missingMsg _ _ (by simp [missingFields, h])
  · intro h
    exact containsSub_missingMsg _ _ (by simp [missingFields, h])
  · intro h
    exact containsSub_missingMsg _ _ (by simp [missingFields, h])
  · intro h
    exact containsSub_missingMsg _ _ (by simp [missingFields, h])

/-- Witness for the amended C4 at a concrete page missing only the star
rating: the parse fails and its message names the rating field. -/
theorem C4_missing_fields_report_witness :
    (parse_book_page "https://books.toscrape.com" noRatingSoup "u" "h").success = false
    ∧ ((parse_book_page "https://books.toscrape.com" noRatingSoup "u" "h").error.map
        (containsSub "rating")) = some true := by
  obtain ⟨msg, heq, _, _, _, hr⟩ :=
    C4_missing_fields_report "https://books.toscrape.com" "u" "h" "Some Title"
      "https://books.toscrape.com/media/x.jpg" noRatingSoup (by with_unfolding_all rfl)
      (by with_unfolding_all rfl) (.inr (.inr (.inr (by decide))))
  rw [heq]
  exact ⟨rfl, by simp [hr (by decide)]⟩

/-- C10 counterexample: a breadcrumb with three links whose third link
text is whitespace makes `_extract_category` return `""` — refuting
"returns a non-empty string for every markup input" — and the page then
fails to parse with `category` among the missing fields. -/
theorem C10_counterexample :
    extract_category blankThirdLinkSoup = ""
    ∧ (parse_book_page "https://books.toscrape.com" blankThirdLinkSoup "u" "h").success
        = false
    ∧ containsSub "category"
        ((parse_book_page "https://books.toscrape.com" blankThirdLinkSoup "u" "h").error.getD "")
        = true := by
  refine ⟨by decide, ?_, ?_⟩
  · exact of_decide_eq_true (by with_unfolding_all rfl)
  · exact of_decide_eq_true (by with_unfolding_all rfl)

/-- C10 amended: the category extractor returns the cleaned text of the
third breadcrumb link when the breadcrumb has at least three links and
the literal `"Unknown"` otherwise; the result is therefore non-empty
(and `category` absent from the missing-field list) whenever the
breadcrumb is absent or short, and a page with no breadcrumb but all
other required fields parses with `success=true` and category
`"Unknown"`. -/
theorem C10_category_extractor :
    (∀ s : Soup, (s.breadcrumbLinks = none
        ∨ ∃ links, s.breadcrumbLinks = some links ∧ links.length < 3) →
      extract_category s = "Unknown")
    ∧ (∀ (s : Soup) (links : List String), s.breadcrumbLinks = some links →
        3 ≤ links.length → extract_category s = clean_text (links.getD 2 ""))
    ∧ (parse_book_page "https://books.toscrape.com" noBreadcrumbSoup "u" "h").success
        = true
    ∧ ((parse_book_page "https://books.toscrape.com" noBreadcrumbSoup "u" "h").book.map
        Book.category) = some "Unknown" := by
  refine ⟨?_, ?_, ?_, ?_⟩
  · intro s h
    rcases h with h | ⟨links, h, hlen⟩
    · simp [extract_category, h]
    · simp [extract_category, h, Nat.not_le.mpr hlen]
  · intro s links h hlen
    simp [extract_category, h, hlen]
  · exact of_decide_eq_true (by with_unfolding_all rfl)
  · exact of_decide_eq_true (by with_unfolding_all rfl)

set_option maxRecDepth 10000 in
/-- C2 counterexample: on a pair differing only in `num_reviews`,
`compare_and_log_changes` emits exactly one `reviews_change` record but
increments no counter matching that change type — the stats dict has no
reviews counter at all, and every per-type counter stays 0 (only the
shared `total_changes` moves, via `_log_change`) — refuting "increments
the counter matching that change_type" for the tracked field
`num_reviews`. -/
theorem C2_counterexample :
    (compare_and_log_changes oldReviewsDict newReviewsDict ({}, [])).1.map
        ChangeRec.change_type = ["reviews_change"]
    ∧ (compare_and_log_changes oldReviewsDict newReviewsDict ({}, [])).2.1
      = { new_books := 0, price_changes := 0, availability_changes := 0,
          rating_changes := 0, total_changes := 1 } := by
  exact ⟨of_decide_eq_true (by with_unfolding_all rfl),
         of_decide_eq_true (by with_unfolding_all rfl)⟩

/-- C2 amended: `compare_and_log_changes` returns exactly one change
record per differing tracked field of {price_incl_tax, availability,
rating, num_reviews}, in that fixed order, each carrying the old value,
the new value and the matching change type, and appends them to the
change log; the price, availability and rating records increment their
matching counters and the shared total; a reviews record increments only
the shared total, since no reviews counter exists; no differing field
gives an empty list and untouched counters. -/
theorem C2_compare_and_log_changes :
    ∀ (old new : BookDict) (st : Stats × List ChangeRec),
      (compare_and_log_changes old new st).1 = specChanges old new
      ∧ (compare_and_log_changes old new st).2.2 = st.2 ++ specChanges old new
      ∧ (compare_and_log_changes old new st).2.1.new_books = st.1.new_books
      ∧ (compare_and_log_changes old new st).2.1.price_changes
        = st.1.price_changes + (if old.price_incl_tax ≠ new.price_incl_tax then 1 else 0)
      ∧ (compare_and_log_changes old new st).2.1.availability_changes
        = st.1.availability_changes + (if old.availability ≠ new.availability then 1 else 0)
      ∧ (compare_and_log_changes old new st).2.1.rating_changes
        = st.1.rating_changes + (if old.rating ≠ new.rating then 1 else 0)
      ∧ (compare_and_log_changes old new st).2.1.total_changes
        = st.1.total_changes + (specChanges old new).length := by
  intro old new st
  by_cases h1 : old.price_incl_tax = new.price_incl_tax <;>
    by_cases h2 : old.availability = new.availability <;>
      by_cases h3 : old.rating = new.rating <;>
        by_cases h4 : old.num_reviews = new.num_reviews <;>
          simp [compare_and_log_changes, specChanges, log_change, fieldRec,
            h1, h2, h3, h4]

/-- C6: at a stored book whose stored hash equals the digest of its own
unchanged fields, the detection step does not take the hash fast path:
the recomputed digest is discarded, the fresh book's `content_hash` is
still `None` and differs from the stored hash, and the step then raises
`AttributeError` inside `compare_and_log_changes` (`.get` on a `Book`),
emitting nothing.  The fast path fires only when the stored hash is
itself `None`. -/
theorem C6_hash_fast_path_bug :
    storedC6.content_hash = some book1099.generate_content_hash
    ∧ detect_book_step storedC6 (some "<html>")
        (fun _ => { success := true, book := some book1099, error := none, url := "u6" })
      = { fastSkipped := false, changes := [], stats := {}, dbUpdated := false,
          error := some bookObjGetErrMsg }
    ∧ detect_book_step { storedC6 with content_hash := none } (some "<html>")
        (fun _ => { success := true, book := some book1099, error := none, url := "u6" })
      = { fastSkipped := true, changes := [], stats := {}, dbUpdated := false,
          error := none } := by
  exact ⟨rfl, by decide, by decide⟩

/-- C3 counterexample: under the default policy (`max_retries = 3`) a
URL failing on its first three calls and succeeding on the fourth is
fetched successfully, after 4 attempts — `range(max_retries + 1)` makes
up to 4 attempts, refuting "up to N attempts (default 3)", under which
this URL would have been reported unavailable. -/
theorem C3_counterexample :
    fetch_with_retry (fun i => if i < 3 then .error "ConnectError" else .ok "<html>")
      = some "<html>"
    ∧ (retry_async 3 2 2
        (fun i => if i < 3 then .error "ConnectError" else .ok "<html>")).2.1 = 4 := by
  constructor
  · exact of_decide_eq_true (by with_unfolding_all rfl)
  · exact of_decide_eq_true (by with_unfolding_all rfl)

/-- C3 amended: the default policy makes up to `max_retries + 1 = 4`
attempts, sleeping the initial 2 seconds multiplied by the 2.0 backoff
between consecutive attempts (delays 2, 4, 8); a URL failing on all
four attempts is reported unavailable — `fetch_with_retry` returns
`None` and no exception passes to its caller — and a URL first
succeeding on attempt `i` (0-based) returns its markup after `i + 1`
attempts. -/
theorem C3_retry_policy :
    ∀ f : Nat → Except String String,
      ((∀ i, i ≤ 3 → ∃ e, f i = Except.error e) →
        fetch_with_retry f = none
        ∧ (retry_async 3 2 2 f).2.1 = 4
        ∧ (retry_async 3 2 2 f).2.2 = [2, 4, 8])
      ∧ (∀ i v, i ≤ 3 → (∀ j, j < i → ∃ e, f j = Except.error e) →
          f i = Except.ok v →
          fetch_with_retry f = some v ∧ (retry_async 3 2 2 f).2.1 = i + 1) := by
  intro f
  constructor
  · intro h
    obtain ⟨e0, h0⟩ := h 0 (by omega)
    obtain ⟨e1, h1⟩ := h 1 (by omega)
    obtain ⟨e2, h2⟩ := h 2 (by omega)
    obtain ⟨e3, h3⟩ := h 3 (by omega)
    refine ⟨?_, ?_, ?_⟩
    · simp [fetch_with_retry, retry_async, retryAux, h0, h1, h2, h3]
    · simp [retry_async, retryAux, h0, h1, h2, h3]
    · simp [retry_async, retryAux, h0, h1, h2, h3]
      norm_num
  · intro i v hi hprev hok
    interval_cases i
    · exact ⟨by simp [fetch_with_retry, retry_async, retryAux, hok],
             by simp [retry_async, retryAux, hok]⟩
    · obtain ⟨e0, h0⟩ := hprev 0 (by omega)
      exact ⟨by simp [fetch_with_retry, retry_async, retryAux, h0, hok],
             by simp [retry_async, retryAux, h0, hok]⟩
    · obtain ⟨e0, h0⟩ := hprev 0 (by omega)
      obtain ⟨e1, h1⟩ := hprev 1 (by omega)
      exact ⟨by simp [fetch_with_retry, retry_async, retryAux, h0, h1, hok],
             by simp [retry_async, retryAux, h0, h1, hok]⟩
    · obtain ⟨e0, h0⟩ := hprev 0 (by omega)
      obtain ⟨e1, h1⟩ := hprev 1 (by omega)
      obtain ⟨e2, h2⟩ := hprev 2 (by omega)
      exact ⟨by simp [fetch_with_retry, retry_async, retryAux, h0, h1, h2, hok],
             by simp [retry_async, retryAux, h0, h1, h2, hok]⟩

/-- Witness for the amended C3 at a URL that always fails and one that
always succeeds. -/
theorem C3_retry_policy_witness :
    (fetch_with_retry (fun _ => Except.error "ConnectError") = none
      ∧ (retry_async 3 2 2 (fun _ => Except.error "ConnectError")).2.1 = 4
      ∧ (retry_async 3 2 2 (fun _ => Except.error "ConnectError")).2.2 = [2, 4, 8])
    ∧ (fetch_with_retry (fun _ => Except.ok "<html>") = some "<html>"
      ∧ (retry_async 3 2 2 (fun _ => Except.ok "<html>")).2.1 = 0 + 1) :=
  ⟨(C3_retry_policy (fun _ => Except.error "ConnectError")).1
      (fun i _ => ⟨"ConnectError", rfl⟩),
   (C3_retry_policy (fun _ => Except.ok "<html>")).2 0 "<html>" (by omega)
      (fun j hj => absurd hj (by omega)) rfl⟩

/-- `bookFor` succeeds exactly on good URLs, whatever the category. -/
theorem bookFor_isSome (site : Site) (url cat : String) :
    (bookFor site url cat).isSome = goodUrl site url := by
  unfold bookFor goodUrl
  cases truthyStr (site.fetch url) <;> simp

/-- The stored key of a freshly built book is its URL. -/
theorem bookFor_url (site : Site) (hk : KeyConsistent site) (url cat : String)
    (b : Book) (hb : bookFor site url cat = some b) : b.url = url := by
  unfold bookFor at hb
  cases ht : truthyStr (site.fetch url) with
  | none => rw [ht] at hb; cases hb
  | some html =>
    rw [ht] at hb
    dsimp only at hb
    cases hp : site.parseBook html url with
    | none => rw [hp] at hb; cases hb
    | some b0 =>
      rw [hp, Option.map_some'] at hb
      injection hb with hb'
      rw [← hb']
      exact hk html url b0 hp

/-- An absent URL makes the duplicate test of `insert_book` fail. -/
theorem any_eq_false_of_get_none (db : DB) (url : String)
    (h : get_book_by_url db url = none) :
    db.books.any (fun p => p.1 = url) = false := by
  unfold get_book_by_url at h
  rw [List.any_eq_false]
  intro x hx
  cases hf : db.books.find? (fun p => decide (p.1 = url)) with
  | none => simpa using List.find?_eq_none.mp hf x hx
  | some a => rw [hf] at h; simp at h

/-- `get_book_by_url` reads only the books list. -/
theorem get_congr_books (db1 db2 : DB) (u : String) (h : db1.books = db2.books) :
    get_book_by_url db1 u = get_book_by_url db2 u := by
  unfold get_book_by_url
  rw [h]

/-- Presence of a key survives appending a book. -/
theorem get_isSome_append (db : DB) (x : String × Book) (u : String)
    (h : (get_book_by_url db u).isSome = true) :
    (get_book_by_url { db with books := db.books ++ [x] } u).isSome = true := by
  unfold get_book_by_url at h ⊢
  rw [List.find?_append]
  cases hf : db.books.find? (fun p => decide (p.1 = u)) with
  | none => rw [hf] at h; simp at h
  | some a => simp [hf]

/-- A freshly appended key is present. -/
theorem get_isSome_append_self (db : DB) (b : Book) (u : String) :
    (get_book_by_url { db with books := db.books ++ [(u, b)] } u).isSome = true := by
  unfold get_book_by_url
  rw [List.find?_append]
  cases hf : db.books.find? (fun p => decide (p.1 = u)) <;> simp [hf, List.find?]

/-- `_crawl_single_book` on an already-stored URL: untouched state,
`False` result. -/
theorem single_book_present (site : Site) (rs : RunState) (url cat : String)
    (h : (get_book_by_url rs.db url).isSome = true) :
    _crawl_single_book site rs url cat = (rs, false) := by
  obtain ⟨b, hb⟩ := Option.isSome_iff_exists.mp h
  unfold _crawl_single_book
  rw [hb]

/-- `_crawl_single_book` on an absent URL whose fetch or parse fails:
untouched state, `False` result. -/
theorem single_book_notGood (site : Site) (rs : RunState) (url cat : String)
    (h1 : get_book_by_url rs.db url = none) (h2 : goodUrl site url = false) :
    _crawl_single_book site rs url cat = (rs, false) := by
  unfold _crawl_single_book
  rw [h1]
  have hb : bookFor site url cat = none := by
    have hs := bookFor_isSome site url cat
    rw [h2] at hs
    exact Option.not_isSome_iff_eq_none.mp (by simp [hs])
  rw [hb]

/-- `_crawl_single_book` on an absent, good URL inserts the book under
its URL and counts it. -/
theorem single_book_good (site : Site) (rs : RunState) (url cat : String)
    (b : Book) (hurl : b.url = url)
    (h1 : get_book_by_url rs.db url = none) (hb : bookFor site url cat = some b) :
    _crawl_single_book site rs url cat = (insertedRun rs url b, true) := by
  unfold _crawl_single_book insert_book insertedRun
  rw [h1, hb]
  dsimp only
  rw [hurl, any_eq_false_of_get_none rs.db url h1]
  simp

/-- `_crawl_single_book` never removes a stored book. -/
theorem single_book_mono (site : Site) (rs : RunState) (url cat u : String)
    (h : (get_book_by_url rs.db u).isSome = true) :
    (get_book_by_url (_crawl_single_book site rs url cat).1.db u).isSome = true := by
  unfold _crawl_single_book
  cases hg : get_book_by_url rs.db url with
  | some b => simpa using h
  | none =>
    cases hb : bookFor site url cat with
    | none => simpa using h
    | some b =>
      unfold insert_book
      by_cases ha : rs.db.books.any (fun p => p.1 = b.url) = true
      · simp [ha, h]
      · simp only [Bool.not_eq_true] at ha
        simp only [ha, Bool.false_eq_true, if_false]
        simpa using get_isSome_append rs.db (b.url, b) u h

/-- A batch over no URLs is the identity. -/
theorem batch_nil (site : Site) (rs : RunState) (cat : String) :
    _crawl_books_batch site rs [] cat = rs := rfl

/-- A batch peels off its first URL as one `batchStep`. -/
theorem batch_cons (site : Site) (rs : RunState) (x : String) (xs : List String)
    (cat : String) :
    _crawl_books_batch site rs (x :: xs) cat
      = _crawl_books_batch site (batchStep site cat rs x) xs cat := rfl

/-- The database after a batch step is the single-book one (the step
only adds counting). -/
theorem batchStep_db (site : Site) (cat : String) (rs : RunState) (url : String) :
    (batchStep site cat rs url).db = (_crawl_single_book site rs url cat).1.db := by
  unfold batchStep
  rcases h : _crawl_single_book site rs url cat with ⟨rs', ok⟩
  cases ok <;> rfl

/-- So is its `total_books` counter. -/
theorem batchStep_total (site : Site) (cat : String) (rs : RunState) (url : String) :
    (batchStep site cat rs url).stats.total_books
      = (_crawl_single_book site rs url cat).1.stats.total_books := by
  unfold batchStep
  rcases h : _crawl_single_book site rs url cat with ⟨rs', ok⟩
  cases ok <;> rfl

/-- A batch step on an already-stored URL only counts it as skipped. -/
theorem batchStep_present (site : Site) (cat : String) (rs : RunState) (url : String)
    (h : (get_book_by_url rs.db url).isSome = true) :
    batchStep site cat rs url
      = { rs with stats := { rs.stats with skipped := rs.stats.skipped + 1 } } := by
  unfold batchStep
  rw [single_book_present site rs url cat h]
  rfl

/-- A batch step on an absent URL whose fetch or parse fails also only
counts it as skipped. -/
theorem batchStep_notGood (site : Site) (cat : String) (rs : RunState) (url : String)
    (h1 : get_book_by_url rs.db url = none) (h2 : goodUrl site url = false) :
    batchStep site cat rs url
      = { rs with stats := { rs.stats with skipped := rs.stats.skipped + 1 } } := by
  unfold batchStep
  rw [single_book_notGood site rs url cat h1 h2]
  rfl

/-- A batch never removes a stored book. -/
theorem batch_mono (site : Site) (cat u : String) :
    ∀ (urls : List String) (rs : RunState),
      (get_book_by_url rs.db u).isSome = true →
      (get_book_by_url (_crawl_books_batch site rs urls cat).db u).isSome = true := by
  intro urls
  induction urls with
  | nil => intro rs h; exact h
  | cons x xs ih =>
    intro rs h
    rw [batch_cons]
    refine ih _ ?_
    have hx := single_book_mono site rs x cat u h
    rw [show (batchStep site cat rs x).db = (_crawl_single_book site rs x cat).1.db
      from batchStep_db site cat rs x]
    exact hx

/-- After a batch containing a good URL, that URL is stored. -/
theorem batch_cover (site : Site) (hk : KeyConsistent site) (cat u : String) :
    ∀ (urls : List String) (rs : RunState),
      u ∈ urls → goodUrl site u = true →
      (get_book_by_url (_crawl_books_batch site rs urls cat).db u).isSome = true := by
  intro urls
  induction urls with
  | nil => intro rs h _; cases h
  | cons x xs ih =>
    intro rs hmem hgood
    rw [batch_cons]
    rcases List.mem_cons.mp hmem with rfl | hmem'
    · refine batch_mono site cat u xs _ ?_
      rw [batchStep_db]
      cases hg : get_book_by_url rs.db u with
      | some bb =>
        exact single_book_mono site rs u cat u (by simp [hg])
      | none =>
        have hbs : (bookFor site u cat).isSome = true := by
          rw [bookFor_isSome site u cat, hgood]
        obtain ⟨b, hb⟩ := Option.isSome_iff_exists.mp hbs
        rw [single_book_good site rs u cat b (bookFor_url site hk u cat b hb) hg hb]
        exact get_isSome_append_self rs.db b u
    · exact ih _ hmem' hgood

/-- A batch over URLs that are each stored-or-hopeless changes neither
the database nor the new-book counter. -/
theorem batch_noop (site : Site) (cat : String) :
    ∀ (urls : List String) (rs : RunState),
      (∀ u ∈ urls, goodUrl site u = true → (get_book_by_url rs.db u).isSome = true) →
      (_crawl_books_batch site rs urls cat).db = rs.db
      ∧ (_crawl_books_batch site rs urls cat).stats.total_books
        = rs.stats.total_books := by
  intro urls
  induction urls with
  | nil => intro rs _; exact ⟨rfl, rfl⟩
  | cons x xs ih =>
    intro rs h
    have hstep : batchStep site cat rs x
        = { rs with stats := { rs.stats with skipped := rs.stats.skipped + 1 } } := by
      by_cases hp : (get_book_by_url rs.db x).isSome = true
      · exact batchStep_present site cat rs x hp
      · have hgx : goodUrl site x = false := by
          cases hgc : goodUrl site x with
          | false => rfl
          | true => exact absurd (h x (List.mem_cons_self x xs) hgc) hp
        have hnone : get_book_by_url rs.db x = none :=
          Option.not_isSome_iff_eq_none.mp (by simpa using hp)
        exact batchStep_notGood site cat rs x hnone hgx
    rw [batch_cons, hstep]
    have ihx := ih { rs with stats := { rs.stats with skipped := rs.stats.skipped + 1 } }
      (fun u hu hg => h u (List.mem_cons_of_mem x hu) hg)
    exact ⟨ihx.1, ihx.2⟩

/-- The page loop never removes a stored book. -/
theorem pages_mono (site : Site) (name u : String) :
    ∀ (fuel : Nat) (url : String) (pn : Nat) (rs : RunState),
      (get_book_by_url rs.db u).isSome = true →
      (get_book_by_url (crawlPages site name fuel url pn rs).db u).isSome = true := by
  intro fuel
  induction fuel with
  | zero => intro url pn rs h; exact h
  | succ fuel ih =>
    intro url pn rs h
    rw [crawlPages]
    dsimp only
    split
    · exact h
    · next html heq =>
      split
      · exact h
      · split
        · next rel hn =>
          exact ih _ _ _ (batch_mono site name u (site.booksOf html) _ h)
        · next hn =>
          exact batch_mono site name u (site.booksOf html) _ h

/-- After the page loop reaches a good URL on one of its pages, that
URL is stored. -/
theorem pages_cover (site : Site) (hk : KeyConsistent site) (name u : String) :
    ∀ (fuel : Nat) (url : String) (pn : Nat) (rs : RunState),
      u ∈ pagesUrls site fuel url → goodUrl site u = true →
      (get_book_by_url (crawlPages site name fuel url pn rs).db u).isSome = true := by
  intro fuel
  induction fuel with
  | zero => intro url pn rs hmem _; cases hmem
  | succ fuel ih =>
    intro url pn rs hmem hgood
    rw [pagesUrls] at hmem
    rw [crawlPages]
    dsimp only at hmem ⊢
    split
    · next heq => rw [heq] at hmem; simp at hmem
    · next html heq =>
      rw [heq] at hmem
      dsimp only at hmem
      split
      · next he => rw [if_pos he] at hmem; simp at hmem
      · next he =>
        rw [if_neg he] at hmem
        rcases List.mem_append.mp hmem with hml | hmr
        · split
          · next rel hn =>
            exact pages_mono site name u fuel _ _ _
              (batch_cover site hk name u (site.booksOf html) _ hml hgood)
          · next hn =>
            exact batch_cover site hk name u (site.booksOf html) _ hml hgood
        · split
          · next rel hn =>
            simp only [hn] at hmr
            exact ih _ _ _ hmr hgood
          · next hn => simp only [hn] at hmr; simp at hmr

/-- The page loop over URLs that are each stored-or-hopeless changes
neither the books collection nor the new-book counter. -/
theorem pages_noop (site : Site) (name : String) :
    ∀ (fuel : Nat) (url : String) (pn : Nat) (rs : RunState),
      (∀ u ∈ pagesUrls site fuel url, goodUrl site u = true →
        (get_book_by_url rs.db u).isSome = true) →
      (crawlPages site name fuel url pn rs).db.books = rs.db.books
      ∧ (crawlPages site name fuel url pn rs).stats.total_books
        = rs.stats.total_books := by
  intro fuel
  induction fuel with
  | zero => intro url pn rs _; exact ⟨rfl, rfl⟩
  | succ fuel ih =>
    intro url pn rs h
    rw [crawlPages]
    dsimp only
    split
    · exact ⟨rfl, rfl⟩
    · next html ht =>
      split
      · exact ⟨rfl, rfl⟩
      · next he =>
        have hmemurls : ∀ u ∈ site.booksOf html, goodUrl site u = true →
            (get_book_by_url rs.db u).isSome = true := by
          intro u hu hg
          refine h u ?_ hg
          rw [pagesUrls, ht]
          dsimp only
          rw [if_neg he]
          exact List.mem_append.mpr (Or.inl hu)
        set rs1 := { rs with fetchedPages := rs.fetchedPages ++ [(name, url, pn)] }
          with hrs1def
        set rs2 := _crawl_books_batch site rs1 (site.booksOf html) name with hrs2def
        set rs3 := { rs2 with
          db := _save_progress rs2.db rs2.stats name (site.booksOf html).getLast? pn }
          with hrs3def
        have hbatch := batch_noop site name (site.booksOf html) rs1 hmemurls
        have hbooks3 : rs3.db.books = rs.db.books := by
          rw [hrs3def]
          show rs2.db.books = rs.db.books
          rw [hbatch.1]
        have htotal3 : rs3.stats.total_books = rs.stats.total_books := by
          rw [hrs3def]
          show rs2.stats.total_books = rs.stats.total_books
          rw [hbatch.2]
        split
        · next rel hn =>
          have htail : ∀ u ∈ pagesUrls site fuel (parentUrl url ++ "/" ++ rel),
              goodUrl site u = true →
              (get_book_by_url rs3.db u).isSome = true := by
            intro u hu hg
            have hp : (get_book_by_url rs.db u).isSome = true := by
              refine h u ?_ hg
              rw [pagesUrls, ht]
              dsimp only
              rw [if_neg he]
              refine List.mem_append.mpr (Or.inr ?_)
              simp only [hn]
              exact hu
            rw [get_congr_books rs3.db rs.db u hbooks3]
            exact hp
          have ihx := ih (parentUrl url ++ "/" ++ rel) (pn + 1) rs3 htail
          exact ⟨ihx.1.trans hbooks3, ihx.2.trans htotal3⟩
        · next hn => exact ⟨hbooks3, htotal3⟩

/-- The category loop never removes a stored book. -/
theorem cats_mono (site : Site) (cs : Option CrawlStateDict) (fuel : Nat) (u : String) :
    ∀ (cats : List (String × String)) (rs : RunState),
      (get_book_by_url rs.db u).isSome = true →
      (get_book_by_url (crawlCats site cs fuel cats rs).db u).isSome = true := by
  intro cats
  induction cats with
  | nil => intro rs h; exact h
  | cons c rest ih =>
    intro rs h
    rcases c with ⟨name, url⟩
    rw [crawlCats]
    dsimp only
    split
    · exact ih _ h
    · exact ih _ (pages_mono site name u fuel url _ _ h)

/-- After the category loop reaches a good URL of a non-skipped
category, that URL is stored. -/
theorem cats_cover (site : Site) (hk : KeyConsistent site)
    (cs : Option CrawlStateDict) (fuel : Nat) (u c : String) :
    ∀ (cats : List (String × String)) (rs : RunState),
      (u, c) ∈ catsUrls site fuel cs cats → goodUrl site u = true →
      (get_book_by_url (crawlCats site cs fuel cats rs).db u).isSome = true := by
  intro cats
  induction cats with
  | nil => intro rs hmem _; cases hmem
  | cons p rest ih =>
    intro rs hmem hgood
    rcases p with ⟨name, url⟩
    rw [catsUrls] at hmem
    rw [crawlCats]
    dsimp only at hmem ⊢
    by_cases hs : skipCategory cs name = true
    · rw [if_pos hs] at hmem ⊢
      exact ih _ hmem hgood
    · rw [if_neg hs] at hmem ⊢
      rcases List.mem_append.mp hmem with hml | hmr
      · obtain ⟨u', hu', hequ⟩ := List.mem_map.mp hml
        injection hequ with h1 h2
        subst h1
        exact cats_mono site cs fuel u' rest _
          (pages_cover site hk name u' fuel url _ _ hu' hgood)
      · exact ih _ hmr hgood

/-- The category loop over URLs that are each stored-or-hopeless
changes neither the books collection nor the new-book counter. -/
theorem cats_noop (site : Site) (cs : Option CrawlStateDict) (fuel : Nat) :
    ∀ (cats : List (String × String)) (rs : RunState),
      (∀ p ∈ catsUrls site fuel cs cats, goodUrl site p.1 = true →
        (get_book_by_url rs.db p.1).isSome = true) →
      (crawlCats site cs fuel cats rs).db.books = rs.db.books
      ∧ (crawlCats site cs fuel cats rs).stats.total_books
        = rs.stats.total_books := by
  intro cats
  induction cats with
  | nil => intro rs _; exact ⟨rfl, rfl⟩
  | cons p rest ih =>
    intro rs h
    rcases p with ⟨name, url⟩
    rw [crawlCats]
    dsimp only
    by_cases hs : skipCategory cs name = true
    · rw [if_pos hs]
      refine ih _ ?_
      intro q hq hg
      refine h q ?_ hg
      rw [catsUrls]
      rw [if_pos hs]
      exact hq
    · rw [if_neg hs]
      set rs1 := { rs with enteredCats := rs.enteredCats ++ [name] } with hrs1
      set rs2 := _crawl_category site cs name url fuel rs1 with hrs2
      set rs3 := { rs2 with db := _save_progress rs2.db rs2.stats name none 1 }
        with hrs3
      have hurlshyp : ∀ u2 ∈ pagesUrls site fuel url, goodUrl site u2 = true →
          (get_book_by_url rs1.db u2).isSome = true := by
        intro u2 hu hg
        refine h (u2, name) ?_ hg
        rw [catsUrls]
        rw [if_neg hs]
        exact List.mem_append.mpr (Or.inl (List.mem_map.mpr ⟨u2, hu, rfl⟩))
      have hpage := pages_noop site name fuel url (resumePage cs name) rs1 hurlshyp
      have hbooks3 : rs3.db.books = rs.db.books := by
        rw [hrs3]
        show rs2.db.books = rs.db.books
        rw [hrs2]
        show (crawlPages site name fuel url (resumePage cs name) rs1).db.books
          = rs.db.books
        rw [hpage.1]
      have htotal3 : rs3.stats.total_books = rs.stats.total_books := by
        rw [hrs3]
        show rs2.stats.total_books = rs.stats.total_books
        rw [hrs2]
        show (crawlPages site name fuel url (resumePage cs name) rs1).stats.total_books
          = rs.stats.total_books
        rw [hpage.2]
      have htailhyp : ∀ q ∈ catsUrls site fuel cs rest, goodUrl site q.1 = true →
          (get_book_by_url rs3.db q.1).isSome = true := by
        intro q hq hg
        have hq' : (get_book_by_url rs.db q.1).isSome = true := by
          refine h q ?_ hg
          rw [catsUrls]
          rw [if_neg hs]
          exact List.mem_append.mpr (Or.inr hq)
        rw [get_congr_books rs3.db rs.db q.1 hbooks3]
        exact hq'
      have ihx := ih rs3 htailhyp
      exact ⟨ihx.1.trans hbooks3, ihx.2.trans htotal3⟩

/-- A whole run stores every good URL it processes. -/
theorem crawl_cover (site : Site) (hk : KeyConsistent site) (db : DB)
    (fuel : Nat) (resume : Bool) :
    ∀ p ∈ crawlUrls site fuel (if resume then db.crawlState else none),
      goodUrl site p.1 = true →
      (get_book_by_url (crawl site resume db fuel).db p.1).isSome = true := by
  intro p hp hg
  rw [crawlUrls] at hp
  unfold crawl
  dsimp only
  split
  · next heq => rw [heq] at hp; simp at hp
  · next html heq =>
    rw [heq] at hp
    dsimp only at hp
    rcases p with ⟨u, c⟩
    exact cats_cover site hk (if resume then db.crawlState else none) fuel u c
      (site.categoriesOf html) _ hp hg

/-- A whole run over URLs that are each stored-or-hopeless leaves the
books collection unchanged and counts zero new books. -/
theorem crawl_noop (site : Site) (db : DB) (fuel : Nat) (resume : Bool) :
    (∀ p ∈ crawlUrls site fuel (if resume then db.crawlState else none),
      goodUrl site p.1 = true → (get_book_by_url db p.1).isSome = true) →
    (crawl site resume db fuel).db.books = db.books
    ∧ (crawl site resume db fuel).stats.total_books = 0 := by
  intro h
  unfold crawl
  dsimp only
  split
  · exact ⟨rfl, rfl⟩
  · next html heq =>
    have hcn := cats_noop site (if resume then db.crawlState else none) fuel
      (site.categoriesOf html) { db := db, stats := {} }
      (fun p hp hg => h p (by rw [crawlUrls, heq]; exact hp) hg)
    exact ⟨hcn.1, hcn.2⟩

/-- A completed run leaves no crawl state when none was stored (it is
cleared at the end; an aborted run leaves the absent state absent). -/
theorem crawl_clears (site : Site) (db : DB) (fuel : Nat) (resume : Bool)
    (h : db.crawlState = none) :
    (crawl site resume db fuel).db.crawlState = none := by
  unfold crawl
  dsimp only
  split
  · exact h
  · rfl

/-- C1: resuming `siteC1` from the stored state (last_category `B`,
last_page 5), the run enters only category `B` — category `C`, which
comes after `B` in the listed order, is skipped, because the skip test
`category_name != crawl_state['last_category']` is never disarmed after
the match — and the one page fetched for `B` is the category's own
page-1 URL `uB`, merely labelled page 5: pagination does not actually
resume at the stored page.  Only `bB` is inserted. -/
theorem C1_resume_skips_later_categories :
    (crawl siteC1 true dbC1 4).enteredCats = ["B"]
    ∧ (crawl siteC1 true dbC1 4).fetchedPages = [("B", "uB", 5)]
    ∧ (crawl siteC1 true dbC1 4).db.books.map Prod.fst = ["bB"] := by
  refine ⟨?_, ?_, ?_⟩ <;> exact of_decide_eq_true (by with_unfolding_all rfl)

/-- C9: a run whose homepage fetch has failed (fetch_with_retry
returned None) returns before touching anything: no category is
entered, no page fetched, the books collection and the CrawlState
record are byte-for-byte the initial ones, and the stats are zero. -/
theorem C9_homepage_failure_aborts :
    ∀ (site : Site) (db : DB) (resume : Bool) (fuel : Nat),
      site.fetch site.base = none →
      crawl site resume db fuel = { db := db, stats := {} } := by
  intro site db resume fuel h
  simp [crawl, truthyStr, h]

/-- Witness for C9: the dead site leaves the stored crawl state and the
books collection of `dbC1` untouched. -/
theorem C9_homepage_failure_aborts_witness :
    crawl deadSite true dbC1 3 = { db := dbC1, stats := {} } :=
  C9_homepage_failure_aborts deadSite dbC1 true 3 rfl

/-- C7: entity insertion is insert-if-URL-absent.  (a) a URL whose
entity is already persisted is skipped untouched by `_crawl_single_book`
(`False` result) and counted as skipped by the batch; (b) for any site
whose parser keys books by their URL and any starting database without a
stored crawl state, running the orchestrator twice against the
unchanged source inserts nothing in the second run — its books
collection is exactly the first run's and the second run's new-entity
counter (`total_books`) is zero. -/
theorem C7_insert_if_absent_idempotent :
    ∀ (site : Site) (db : DB) (fuel : Nat),
      KeyConsistent site →
      db.crawlState = none →
      (∀ (rs : RunState) (url cat : String),
          (get_book_by_url rs.db url).isSome = true →
          _crawl_single_book site rs url cat = (rs, false)
          ∧ _crawl_books_batch site rs [url] cat
            = { rs with stats := { rs.stats with skipped := rs.stats.skipped + 1 } })
      ∧ (crawl site true (crawl site true db fuel).db fuel).db.books
          = (crawl site true db fuel).db.books
      ∧ (crawl site true (crawl site true db fuel).db fuel).stats.total_books
          = 0 := by
  intro site db fuel hk hcs
  constructor
  · intro rs url cat hp
    refine ⟨single_book_present site rs url cat hp, ?_⟩
    rw [batch_cons, batchStep_present site cat rs url hp, batch_nil]
  · have hstate : (crawl site true db fuel).db.crawlState = none :=
      crawl_clears site db fuel true hcs
    have hcs1 : (if true then db.crawlState else none) = none := by
      rw [if_pos rfl, hcs]
    have h2 : ∀ p ∈ crawlUrls site fuel
        (if true then (crawl site true db fuel).db.crawlState else none),
        goodUrl site p.1 = true →
        (get_book_by_url (crawl site true db fuel).db p.1).isSome = true := by
      intro p hp hg
      rw [if_pos rfl, hstate] at hp
      refine crawl_cover site hk db fuel true p ?_ hg
      rw [hcs1]
      exact hp
    have hnoop := crawl_noop site (crawl site true db fuel).db fuel true h2
    exact ⟨hnoop.1, hnoop.2⟩

/-- Witness for C7 at the concrete three-category site: the stored URL
`bB` is skipped untouched and counted, and the second of two runs from
the empty stateless database inserts nothing and counts zero. -/
theorem C7_insert_if_absent_idempotent_witness :
    (_crawl_single_book siteC1 rsW "bB" "B" = (rsW, false)
      ∧ _crawl_books_batch siteC1 rsW ["bB"] "B"
        = { rsW with stats := { rsW.stats with skipped := rsW.stats.skipped + 1 } })
    ∧ (crawl siteC1 true (crawl siteC1 true dbEmpty 4).db 4).db.books
        = (crawl siteC1 true dbEmpty 4).db.books
    ∧ (crawl siteC1 true (crawl siteC1 true dbEmpty 4).db 4).stats.total_books
        = 0 :=
  have h := C7_insert_if_absent_idempotent siteC1 dbEmpty 4
    (fun _ url b hb => by cases hb; rfl) rfl
  ⟨h.1 rsW "bB" "B" (by decide), h.2.1, h.2.2⟩

/-- Witness for the amended C10: the extractor applied to the empty
page and to a short breadcrumb. -/
theorem C10_category_extractor_witness :
    extract_category emptySoup = "Unknown"
    ∧ extract_category { breadcrumbLinks := some ["Home", "Books"] } = "Unknown"
    ∧ extract_category blankThirdLinkSoup = clean_text " " :=
  ⟨C10_category_extractor.1 emptySoup (.inl rfl),
   C10_category_extractor.1 _ (.inr ⟨_, rfl, by decide⟩),
   C10_category_extractor.2.1 blankThirdLinkSoup _ rfl (by decide)⟩

end Crawler
